import Mathlib

/-!
# Shallow embedding of `api_cli.py` (fredsystems/zabbid)

The program is an interactive HTTP API client: it prompts an operator for
field values, assembles JSON POST bodies or GET query parameters, and sends
one request per menu selection.  We embed it as follows.

* Operator input is a scripted list of strings (one entry per `input()` call,
  already line-oriented).  Python's `str.strip()` and `str.lower()` are
  modelled by `pyStrip` and `pyLower` (ASCII, which covers keyboard input).
* The module-level `SESSION` dict is threaded explicitly: every interactive
  computation has type `M α := Session → List String → Option (α × Session ×
  List String × List String)`.  The last component is the trace of prompt
  labels issued (one entry per prompt call), used to state "this builder
  never prompts for X".  `none` means the scripted input ran out while the
  program was still waiting on the operator (the real program would block on
  `input()`); it never models an exception.
* Python's `int(...)` on stripped text is modelled by `pyInt` (sign, ASCII
  digits, single underscores between digits).
* `urllib.parse.quote` / `urlencode` and `json.dumps` (default options,
  `ensure_ascii=True`) are modelled byte-faithfully for the character data
  this client produces.
* The unbounded retry loops in `prompt_int` and the register-user `user_type`
  loop are modelled with fuel equal to the number of remaining scripted
  inputs: each loop iteration consumes at least one input, so the fuel runs
  out exactly when the input script does.
* `http_post` performs `urllib.request.urlopen`; we model the request value
  it constructs (method, URL, Content-Type header, serialized body).
  `http_get` is modelled by the full URL it requests.
* The `main` loop's `try`/`except` dispatch is modelled by `handleException`;
  network behaviour is an oracle returning either a 2xx response or the
  `urllib.error.HTTPError` data that `urlopen` raises on non-2xx.
-/

namespace Zabbid

/-- ASCII whitespace as stripped by Python's `str.strip()`. -/
def pyIsSpace (c : Char) : Bool :=
  c = ' ' || c = '\t' || c = '\n' || c = '\r' || c = '\x0b' || c = '\x0c'

/-- Model of Python `str.strip()` (ASCII whitespace). -/
def pyStrip (s : String) : String :=
  String.mk (((s.data.dropWhile pyIsSpace).reverse.dropWhile pyIsSpace).reverse)

/-- Model of Python `str.lower()` (ASCII case folding). -/
def pyLower (s : String) : String :=
  String.mk (s.data.map Char.toLower)

/-- Model of Python `int(s)` on the digit part: ASCII digits with single
underscores allowed between digits. Accumulator form. -/
def pyDigits : Nat → List Char → Option Nat
  | acc, [] => some acc
  | acc, '_' :: c :: cs =>
    if c.isDigit then pyDigits (acc * 10 + (c.toNat - 48)) cs else none
  | _, ['_'] => none
  | acc, c :: cs =>
    if c.isDigit then pyDigits (acc * 10 + (c.toNat - 48)) cs else none

/-- Digit-part parser: at least one leading digit, then `pyDigits`. -/
def pyIntDigits : List Char → Option Nat
  | [] => none
  | c :: rest => if c.isDigit then pyDigits (c.toNat - 48) rest else none

/-- Model of Python `int(s)` for `ValueError`-or-value semantics: optional
surrounding whitespace, optional sign, decimal digits with single
underscores between digits.  `none` models `ValueError`. -/
def pyInt (s : String) : Option Int :=
  match (pyStrip s).data with
  | [] => none
  | '+' :: rest => (pyIntDigits rest).map (fun n => (n : Int))
  | '-' :: rest => (pyIntDigits rest).map (fun n => -(n : Int))
  | cs => (pyIntDigits cs).map (fun n => (n : Int))

/-- Characters `urllib.parse.quote`/`quote_plus` never escape
(letters, digits, `_.-~`). -/
def isUrlUnreserved (c : Char) : Bool :=
  c.isAlphanum || c = '_' || c = '.' || c = '-' || c = '~'

/-- UTF-8 encoding of a character, as byte values. -/
def utf8Bytes (c : Char) : List Nat :=
  let n := c.toNat
  if n < 128 then [n]
  else if n < 2048 then [192 + n / 64, 128 + n % 64]
  else if n < 65536 then [224 + n / 4096, 128 + n / 64 % 64, 128 + n % 64]
  else [240 + n / 262144, 128 + n / 4096 % 64, 128 + n / 64 % 64, 128 + n % 64]

/-- Uppercase hexadecimal digit. -/
def hexUpper (n : Nat) : Char :=
  if n < 10 then Char.ofNat (48 + n) else Char.ofNat (55 + n)

/-- `%XX` escape of one byte, as produced by `urllib.parse.quote`. -/
def percentByte (b : Nat) : String :=
  String.mk ['%', hexUpper (b / 16), hexUpper (b % 16)]

/-- One character under `urllib.parse.quote` with the default `safe='/'`. -/
def pyQuoteChar (c : Char) : String :=
  if isUrlUnreserved c || c = '/' then String.singleton c
  else String.join ((utf8Bytes c).map percentByte)

/-- Model of `urllib.parse.quote(s)` (default `safe='/'`). -/
def pyQuote (s : String) : String :=
  String.join (s.data.map pyQuoteChar)

/-- One character under `urllib.parse.quote_plus` (space becomes `+`,
no safe characters), as used by `urllib.parse.urlencode`. -/
def quotePlusChar (c : Char) : String :=
  if c = ' ' then "+"
  else if isUrlUnreserved c then String.singleton c
  else String.join ((utf8Bytes c).map percentByte)

/-- Model of `urllib.parse.quote_plus`. -/
def quotePlus (s : String) : String :=
  String.join (s.data.map quotePlusChar)

/-- Model of `urllib.parse.urlencode` on an ordered parameter mapping. -/
def urlencode (params : List (String × String)) : String :=
  String.intercalate "&" (params.map (fun kv => quotePlus kv.1 ++ "=" ++ quotePlus kv.2))

/-- JSON values occurring in this client's payloads (strings, ints, null). -/
inductive JVal where
  | jstr : String → JVal
  | jint : Int → JVal
  | jnull : JVal
deriving DecidableEq, Repr

/-- Lowercase hexadecimal digit (as in Python's `\uXXXX` JSON escapes). -/
def hexLower (n : Nat) : Char :=
  if n < 10 then Char.ofNat (48 + n) else Char.ofNat (87 + n)

/-- `\uXXXX` escape with lowercase hex digits. -/
def jsonEscU4 (n : Nat) : String :=
  "\\u" ++ String.mk [hexLower (n / 4096 % 16), hexLower (n / 256 % 16),
    hexLower (n / 16 % 16), hexLower (n % 16)]

/-- One character as emitted by `json.dumps` (default `ensure_ascii=True`):
printable ASCII other than quote/backslash passes through, the short escapes
are used where they exist, everything else becomes `\uXXXX` (with surrogate
pairs beyond the BMP). -/
def jsonEscapeChar (c : Char) : String :=
  if c = '"' then "\\\""
  else if c = '\\' then "\\\\"
  else if c = '\n' then "\\n"
  else if c = '\r' then "\\r"
  else if c = '\t' then "\\t"
  else if c.toNat = 8 then "\\b"
  else if c.toNat = 12 then "\\f"
  else if 32 ≤ c.toNat && c.toNat ≤ 126 then String.singleton c
  else if c.toNat < 65536 then jsonEscU4 c.toNat
  else jsonEscU4 (55296 + (c.toNat - 65536) / 1024) ++
       jsonEscU4 (56320 + (c.toNat - 65536) % 1024)

/-- JSON string literal as emitted by `json.dumps`. -/
def jsonString (s : String) : String :=
  "\"" ++ String.join (s.data.map jsonEscapeChar) ++ "\""

/-- Serialization of one JSON value (`json.dumps` renders `None` as `null`,
ints in decimal). -/
def jsonVal : JVal → String
  | .jstr s => jsonString s
  | .jint n => toString n
  | .jnull => "null"

/-- Model of `json.dumps(obj)` on an insertion-ordered object, with the
default separators `", "` and `": "`. -/
def jsonDumps (p : List (String × JVal)) : String :=
  "\x7b" ++ String.intercalate ", " (p.map (fun kv => jsonString kv.1 ++ ": " ++ jsonVal kv.2)) ++ "\x7d"

/-- The module-level `SESSION : SessionContext` dict (all keys optional). -/
structure Session where
  actor_id : Option String := none
  actor_role : Option String := none
  cause_id : Option String := none
  cause_description : Option String := none
  bid_year : Option Int := none
  area : Option String := none
deriving DecidableEq, Repr

/-- `SESSION = {}` at process start. -/
def emptySession : Session := {}

/-- Interactive computations: session state, scripted operator input, and a
trace of the prompt labels issued.  `none` = the script ran out while the
program was still blocked on `input()`. -/
abbrev M (α : Type) : Type :=
  Session → List String → Option (α × Session × List String × List String)

/-- Return without interacting. -/
def mpure {α : Type} (a : α) : M α := fun s i => some (a, s, i, [])

/-- Sequencing; prompt traces concatenate. -/
def mbind {α β : Type} (x : M α) (f : α → M β) : M β := fun s i =>
  match x s i with
  | none => none
  | some (a, s₁, i₁, t₁) =>
    match f a s₁ i₁ with
    | none => none
    | some (b, s₂, i₂, t₂) => some (b, s₂, i₂, t₁ ++ t₂)

/-- Read `SESSION`. -/
def getSession : M Session := fun s i => some (s, s, i, [])

/-- Overwrite `SESSION` (models the dict assignments / `SESSION.update`). -/
def setSession (s' : Session) : M Unit := fun _ i => some ((), s', i, [])

/-- Input-consuming core of `prompt_str`: strip the line; non-empty wins;
otherwise the default, if any; otherwise `""` when optional; otherwise
print "This field is required." and re-prompt. -/
def promptStrRun (optional : Bool) (default : Option String) : List String → Option (String × List String)
  | [] => none
  | raw :: rest =>
    if pyStrip raw ≠ "" then some (pyStrip raw, rest)
    else
      match default with
      | some d => some (d, rest)
      | none => if optional then some ("", rest) else promptStrRun optional default rest

/-- `prompt_str(label, optional=..., default=...)` lifted to `M`. -/
def prompt_str (label : String) (optional : Bool) (default : Option String) : M String :=
  fun s i =>
    match promptStrRun optional default i with
    | none => none
    | some (v, rest) => some (v, s, rest, [label])

/-- Core of the `prompt_int` retry loop, with fuel: each iteration calls
`prompt_str` (which consumes at least one input), so fuel equal to the
number of remaining inputs is exhaustive. -/
def promptIntAux (default : Option Int) : Nat → List String → Option (Int × List String)
  | 0, _ => none
  | fuel + 1, inputs =>
    match promptStrRun false (default.map toString) inputs with
    | none => none
    | some (raw, rest) =>
      match pyInt raw with
      | some n => some (n, rest)
      | none => promptIntAux default fuel rest

/-- Input-consuming core of `prompt_int(label, default=...)`. -/
def promptIntRun (default : Option Int) (inputs : List String) : Option (Int × List String) :=
  promptIntAux default inputs.length inputs

/-- `prompt_int(label, default=...)` lifted to `M`. -/
def prompt_int (label : String) (default : Option Int) : M Int :=
  fun s i =>
    match promptIntRun default i with
    | none => none
    | some (v, rest) => some (v, s, rest, [label])

/-- Input-consuming core of `prompt_yes_no`: strip and lowercase; empty
yields the default; `y`/`yes`/`n`/`no` decide; anything else re-prompts. -/
def promptYesNoRun (default : Bool) : List String → Option (Bool × List String)
  | [] => none
  | raw :: rest =>
    let r := pyLower (pyStrip raw)
    if r = "" then some (default, rest)
    else if r = "y" || r = "yes" then some (true, rest)
    else if r = "n" || r = "no" then some (false, rest)
    else promptYesNoRun default rest

/-- `prompt_yes_no(label, default=...)` lifted to `M`. -/
def prompt_yes_no (label : String) (default : Bool) : M Bool :=
  fun s i =>
    match promptYesNoRun default i with
    | none => none
    | some (v, rest) => some (v, s, rest, [label])

/-- The closed set of user types (`UserType = Literal[...]`). -/
def userTypes : List String := ["CPC", "CPC-IT", "Dev-D", "Dev-R"]

/-- Core of the register-user `user_type` validation loop (fuelled like
`promptIntAux`): re-prompt until the entered value is in `userTypes`. -/
def promptUserTypeAux : Nat → List String → Option (String × List String)
  | 0, _ => none
  | fuel + 1, inputs =>
    match promptStrRun false none inputs with
    | none => none
    | some (ut, rest) =>
      if ut ∈ userTypes then some (ut, rest) else promptUserTypeAux fuel rest

/-- The register-user `user_type` loop lifted to `M`. -/
def promptUserType : M String :=
  fun s i =>
    match promptUserTypeAux i.length i with
    | none => none
    | some (v, rest) => some (v, s, rest, ["User type (CPC, CPC-IT, Dev-D, Dev-R)"])

/-- The actor attribution envelope collected for mutating requests. -/
structure ActorEnvelope where
  actor_id : String
  actor_role : String
  cause_id : String
  cause_description : String
deriving DecidableEq, Repr

/-- The four envelope entries in the insertion order Python produces
(`**env` expansion / explicit dict literal). -/
def envFields (env : ActorEnvelope) : List (String × JVal) :=
  [("actor_id", .jstr env.actor_id), ("actor_role", .jstr env.actor_role),
   ("cause_id", .jstr env.cause_id), ("cause_description", .jstr env.cause_description)]

/-- `prompt_actor_envelope()`: prompt the four actor fields (each pre-filled
from `SESSION`), then `SESSION.update(...)` with the accepted values. -/
def prompt_actor_envelope : M ActorEnvelope :=
  mbind getSession fun s0 =>
  mbind (prompt_str "Actor ID" false s0.actor_id) fun actor_id =>
  mbind getSession fun s1 =>
  mbind (prompt_str "Actor Role (Admin/Bidder)" false s1.actor_role) fun actor_role =>
  mbind getSession fun s2 =>
  mbind (prompt_str "Cause ID" false s2.cause_id) fun cause_id =>
  mbind getSession fun s3 =>
  mbind (prompt_str "Cause description" false s3.cause_description) fun cause_description =>
  mbind getSession fun s4 =>
  mbind (setSession { s4 with
          actor_id := some actor_id, actor_role := some actor_role,
          cause_id := some cause_id, cause_description := some cause_description }) fun _ =>
  mpure { actor_id := actor_id, actor_role := actor_role,
          cause_id := cause_id, cause_description := cause_description }

/-- `Optional[int]` request fields: `None` serializes to JSON `null`. -/
def optJInt : Option Int → JVal
  | some n => .jint n
  | none => .jnull

/-- Result of `build_post_payload`: a JSON object, or the
`NotImplementedError` message raised on the fall-through. -/
inductive BuildResult where
  | ok : List (String × JVal) → BuildResult
  | notImplemented : String → BuildResult
deriving DecidableEq, Repr
/-- Branch of `build_post_payload` for "/api/bid_years" (Create Bid Year). -/
def buildBidYears : M BuildResult :=
  mbind prompt_actor_envelope fun env =>
  mbind (prompt_int "Bid year" none) fun year =>
  mbind (prompt_str "Start date (YYYY-MM-DD)" false none) fun start_date =>
  mbind (prompt_int "Number of pay periods (26 or 27)" none) fun num_pay_periods =>
  mpure (.ok (envFields env ++
    [("year", .jint year), ("start_date", .jstr start_date),
     ("num_pay_periods", .jint num_pay_periods)]))

/-- Branch of `build_post_payload` for "/api/areas" (Create Area). -/
def buildAreas : M BuildResult :=
  mbind prompt_actor_envelope fun env =>
  mbind getSession fun s0 =>
  mbind (prompt_int "Bid year" s0.bid_year) fun bid_year =>
  mbind (prompt_str "Area ID" false none) fun area_id =>
  mbind getSession fun s1 =>
  mbind (setSession { s1 with bid_year := some bid_year, area := some area_id }) fun _ =>
  mpure (.ok (envFields env ++
    [("bid_year", .jint bid_year), ("area_id", .jstr area_id)]))

/-- Branch of `build_post_payload` for "/api/users" (Register User).  The
`user_type` value comes from the validating retry loop and `lottery_value`
is the literal `None`; no lottery prompt exists on this path. -/
def buildUsers : M BuildResult :=
  mbind prompt_actor_envelope fun env =>
  mbind (prompt_yes_no "Assign crew now?" false) fun assign_crew =>
  mbind (if assign_crew
         then mbind (prompt_int "Crew (1-7)" none) fun n => mpure (some n)
         else mpure none) fun crew_val =>
  mbind promptUserType fun user_type_val =>
  mbind getSession fun s0 =>
  mbind (prompt_int "Bid year" s0.bid_year) fun bid_year =>
  mbind (prompt_str "User initials" false none) fun initials =>
  mbind (prompt_str "User name" false none) fun uname =>
  mbind getSession fun s1 =>
  mbind (prompt_str "Area" false s1.area) fun area =>
  mbind (prompt_str "Cumulative NATCA BU date (YYYY-MM-DD)" false none) fun cnbd =>
  mbind (prompt_str "NATCA BU date (YYYY-MM-DD)" false none) fun nbd =>
  mbind (prompt_str "EOD/FAA date (YYYY-MM-DD)" false none) fun eod =>
  mbind (prompt_str "SCD (YYYY-MM-DD)" false none) fun scd =>
  mbind getSession fun s2 =>
  mbind (setSession { s2 with bid_year := some bid_year, area := some area }) fun _ =>
  mpure (.ok (envFields env ++
    [("bid_year", .jint bid_year), ("initials", .jstr initials),
     ("name", .jstr uname), ("area", .jstr area), ("crew", optJInt crew_val),
     ("user_type", .jstr user_type_val),
     ("cumulative_natca_bu_date", .jstr cnbd), ("natca_bu_date", .jstr nbd),
     ("eod_faa_date", .jstr eod), ("service_computation_date", .jstr scd),
     ("lottery_value", .jnull)]))

/-- Branch of `build_post_payload` for "/api/checkpoint". -/
def buildCheckpoint : M BuildResult :=
  mbind prompt_actor_envelope fun env =>
  mbind getSession fun s0 =>
  mbind (prompt_int "Bid year" s0.bid_year) fun bid_year =>
  mbind getSession fun s1 =>
  mbind (prompt_str "Area" false s1.area) fun area =>
  mbind getSession fun s2 =>
  mbind (setSession { s2 with bid_year := some bid_year, area := some area }) fun _ =>
  mpure (.ok (envFields env ++
    [("bid_year", .jint bid_year), ("area", .jstr area)]))

/-- Branch of `build_post_payload` for "/api/finalize". -/
def buildFinalize : M BuildResult :=
  mbind prompt_actor_envelope fun env =>
  mbind getSession fun s0 =>
  mbind (prompt_int "Bid year" s0.bid_year) fun bid_year =>
  mbind getSession fun s1 =>
  mbind (prompt_str "Area" false s1.area) fun area =>
  mbind getSession fun s2 =>
  mbind (setSession { s2 with bid_year := some bid_year, area := some area }) fun _ =>
  mpure (.ok (envFields env ++
    [("bid_year", .jint bid_year), ("area", .jstr area)]))

/-- Branch of `build_post_payload` for "/api/auth/bootstrap/login": bare
credential pair with built-in defaults "admin"/"admin", no actor envelope. -/
def buildBootstrapLogin : M BuildResult :=
  mbind (prompt_str "Username" false (some "admin")) fun username =>
  mbind (prompt_str "Password" false (some "admin")) fun password =>
  mpure (.ok [("username", .jstr username), ("password", .jstr password)])

/-- Branch of `build_post_payload` for "/api/auth/bootstrap/create-first-admin". -/
def buildCreateFirstAdmin : M BuildResult :=
  mbind (prompt_str "New admin login name" false none) fun login_name =>
  mbind (prompt_str "New admin display name" false none) fun display_name =>
  mbind (prompt_str "New admin password" false none) fun password =>
  mpure (.ok [("login_name", .jstr login_name), ("display_name", .jstr display_name),
              ("password", .jstr password)])

/-- Branch of `build_post_payload` for "/api/auth/login". -/
def buildLogin : M BuildResult :=
  mbind (prompt_str "Login name" false none) fun login_name =>
  mbind (prompt_str "Password" false none) fun password =>
  mpure (.ok [("login_name", .jstr login_name), ("password", .jstr password)])

/-- Branch of `build_post_payload` for "/api/auth/logout". -/
def buildLogout : M BuildResult :=
  mbind (prompt_str "Session token" false none) fun session_token =>
  mpure (.ok [("session_token", .jstr session_token)])

/-- Branch of `build_post_payload` for "/api/rollback". -/
def buildRollback : M BuildResult :=
  mbind prompt_actor_envelope fun env =>
  mbind (prompt_int "Target event ID to roll back to" none) fun target_event_id =>
  mbind getSession fun s0 =>
  mbind (prompt_int "Bid year" s0.bid_year) fun bid_year =>
  mbind getSession fun s1 =>
  mbind (prompt_str "Area" false s1.area) fun area =>
  mbind getSession fun s2 =>
  mbind (setSession { s2 with bid_year := some bid_year, area := some area }) fun _ =>
  mpure (.ok (envFields env ++
    [("bid_year", .jint bid_year), ("area", .jstr area),
     ("target_event_id", .jint target_event_id)]))

/-- Branch of `build_post_payload` for "/api/bootstrap/bid-years/active"
(POST: Set Active Bid Year). -/
def buildSetActiveBidYear : M BuildResult :=
  mbind prompt_actor_envelope fun env =>
  mbind (prompt_int "Bid year to activate" none) fun year =>
  mpure (.ok (envFields env ++ [("year", .jint year)]))

/-- Branch of `build_post_payload` for "/api/bootstrap/bid-years/expected-areas". -/
def buildSetExpectedAreas : M BuildResult :=
  mbind prompt_actor_envelope fun env =>
  mbind getSession fun s0 =>
  mbind (prompt_int "Bid year" s0.bid_year) fun bid_year =>
  mbind (prompt_int "Expected area count" none) fun expected_count =>
  mbind getSession fun s1 =>
  mbind (setSession { s1 with bid_year := some bid_year }) fun _ =>
  mpure (.ok (envFields env ++
    [("bid_year", .jint bid_year), ("expected_count", .jint expected_count)]))

/-- Branch of `build_post_payload` for "/api/bootstrap/areas/expected-users". -/
def buildSetExpectedUsers : M BuildResult :=
  mbind prompt_actor_envelope fun env =>
  mbind getSession fun s0 =>
  mbind (prompt_int "Bid year" s0.bid_year) fun bid_year =>
  mbind getSession fun s1 =>
  mbind (prompt_str "Area" false s1.area) fun area =>
  mbind (prompt_int "Expected user count" none) fun expected_count =>
  mbind getSession fun s2 =>
  mbind (setSession { s2 with bid_year := some bid_year, area := some area }) fun _ =>
  mpure (.ok (envFields env ++
    [("bid_year", .jint bid_year), ("area", .jstr area),
     ("expected_count", .jint expected_count)]))

/-- Branch of `build_post_payload` for "/api/users/update" (Update User).
Note `user_type` is collected by a plain `prompt_str` with default "CPC" and
then `cast` to the `UserType` literal type without any membership check. -/
def buildUpdateUser : M BuildResult :=
  mbind prompt_actor_envelope fun env =>
  mbind getSession fun s0 =>
  mbind (prompt_int "Bid year" s0.bid_year) fun bid_year =>
  mbind (prompt_str "User initials" false none) fun initials =>
  mbind (prompt_str "User name" false none) fun uname =>
  mbind getSession fun s1 =>
  mbind (prompt_str "Area" false s1.area) fun area =>
  mbind (prompt_str "User type (CPC, CPC-IT, Dev-D, Dev-R)" false (some "CPC")) fun user_type =>
  mbind (prompt_yes_no "Has crew assignment?" true) fun has_crew =>
  mbind (if has_crew
         then mbind (prompt_int "Crew (1-7)" none) fun n => mpure (some n)
         else mpure none) fun crew =>
  mbind (prompt_str "Cumulative NATCA BU date" false none) fun cnbd =>
  mbind (prompt_str "NATCA BU date" false none) fun nbd =>
  mbind (prompt_str "EOD/FAA date" false none) fun eod =>
  mbind (prompt_str "Service Computation Date" false none) fun scd =>
  mbind (prompt_yes_no "Has lottery value?" false) fun has_lottery =>
  mbind (if has_lottery
         then mbind (prompt_int "Lottery value" none) fun n => mpure (some n)
         else mpure none) fun lottery_value =>
  mbind getSession fun s2 =>
  mbind (setSession { s2 with bid_year := some bid_year, area := some area }) fun _ =>
  mpure (.ok (envFields env ++
    [("bid_year", .jint bid_year), ("initials", .jstr initials),
     ("name", .jstr uname), ("area", .jstr area), ("crew", optJInt crew),
     ("user_type", .jstr user_type),
     ("cumulative_natca_bu_date", .jstr cnbd), ("natca_bu_date", .jstr nbd),
     ("eod_faa_date", .jstr eod), ("service_computation_date", .jstr scd),
     ("lottery_value", optJInt lottery_value)]))

/-- Dispatch of `build_post_payload(path)`: the if-chain over paths from the
source, falling through to `raise NotImplementedError(f"POST body schema not
implemented for {path}")`. -/
def build_post_payload (path : String) : M BuildResult :=
  if path = "/api/bid_years" then buildBidYears
  else if path = "/api/areas" then buildAreas
  else if path = "/api/users" then buildUsers
  else if path = "/api/checkpoint" then buildCheckpoint
  else if path = "/api/finalize" then buildFinalize
  else if path = "/api/auth/bootstrap/login" then buildBootstrapLogin
  else if path = "/api/auth/bootstrap/create-first-admin" then buildCreateFirstAdmin
  else if path = "/api/auth/login" then buildLogin
  else if path = "/api/auth/logout" then buildLogout
  else if path = "/api/rollback" then buildRollback
  else if path = "/api/bootstrap/bid-years/active" then buildSetActiveBidYear
  else if path = "/api/bootstrap/bid-years/expected-areas" then buildSetExpectedAreas
  else if path = "/api/bootstrap/areas/expected-users" then buildSetExpectedUsers
  else if path = "/api/users/update" then buildUpdateUser
  else mpure (.notImplemented ("POST body schema not implemented for " ++ path))

/-- Branch of `build_get_params` for "/api/areas" (List Areas). -/
def getParamsAreas : M (List (String × String)) :=
  mbind getSession fun s0 =>
  mbind (prompt_int "Bid year" s0.bid_year) fun bid_year =>
  mbind getSession fun s1 =>
  mbind (setSession { s1 with bid_year := some bid_year }) fun _ =>
  mpure [("bid_year", toString bid_year)]

/-- Branch of `build_get_params` for "/api/users" (List Users). -/
def getParamsUsers : M (List (String × String)) :=
  mbind getSession fun s0 =>
  mbind (prompt_int "Bid year" s0.bid_year) fun bid_year =>
  mbind getSession fun s1 =>
  mbind (prompt_str "Area" false s1.area) fun area =>
  mbind getSession fun s2 =>
  mbind (setSession { s2 with bid_year := some bid_year, area := some area }) fun _ =>
  mpure [("bid_year", toString bid_year), ("area", area)]

/-- Branch of `build_get_params` for "/api/leave/availability". -/
def getParamsLeave : M (List (String × String)) :=
  mbind getSession fun s0 =>
  mbind (prompt_int "Bid year" s0.bid_year) fun bid_year =>
  mbind getSession fun s1 =>
  mbind (prompt_str "Area" false s1.area) fun area =>
  mbind (prompt_str "User initials" false none) fun initials =>
  mbind getSession fun s2 =>
  mbind (setSession { s2 with bid_year := some bid_year, area := some area }) fun _ =>
  mpure [("bid_year", toString bid_year), ("area", area), ("initials", initials)]

/-- Branch of `build_get_params` for "/api/state/current". -/
def getParamsStateCurrent : M (List (String × String)) :=
  mbind getSession fun s0 =>
  mbind (prompt_int "Bid year" s0.bid_year) fun bid_year =>
  mbind getSession fun s1 =>
  mbind (prompt_str "Area" false s1.area) fun area =>
  mbind getSession fun s2 =>
  mbind (setSession { s2 with bid_year := some bid_year, area := some area }) fun _ =>
  mpure [("bid_year", toString bid_year), ("area", area)]

/-- Branch of `build_get_params` for "/api/state/historical". -/
def getParamsStateHistorical : M (List (String × String)) :=
  mbind getSession fun s0 =>
  mbind (prompt_int "Bid year" s0.bid_year) fun bid_year =>
  mbind getSession fun s1 =>
  mbind (prompt_str "Area" false s1.area) fun area =>
  mbind (prompt_int "Event ID" none) fun event_id =>
  mbind getSession fun s2 =>
  mbind (setSession { s2 with bid_year := some bid_year, area := some area }) fun _ =>
  mpure [("bid_year", toString bid_year), ("area", area), ("event_id", toString event_id)]

/-- Branch of `build_get_params` for "/api/audit/timeline". -/
def getParamsAuditTimeline : M (List (String × String)) :=
  mbind getSession fun s0 =>
  mbind (prompt_int "Bid year" s0.bid_year) fun bid_year =>
  mbind getSession fun s1 =>
  mbind (prompt_str "Area" false s1.area) fun area =>
  mbind getSession fun s2 =>
  mbind (setSession { s2 with bid_year := some bid_year, area := some area }) fun _ =>
  mpure [("bid_year", toString bid_year), ("area", area)]

/-- Branch of `build_get_params` for "/api/audit/event": the entered id is
returned under the `__event_id_path__` marker key, with no other params. -/
def getParamsAuditEvent : M (List (String × String)) :=
  mbind (prompt_int "Event ID" none) fun event_id =>
  mpure [("__event_id_path__", toString event_id)]

/-- Dispatch of `build_get_params(path)` over GET paths from the source;
paths with no parameters (and the fall-through) return the empty mapping. -/
def build_get_params (path : String) : M (List (String × String)) :=
  if path = "/api/bid_years" then mpure []
  else if path = "/api/areas" then getParamsAreas
  else if path = "/api/users" then getParamsUsers
  else if path = "/api/leave/availability" then getParamsLeave
  else if path = "/api/state/current" then getParamsStateCurrent
  else if path = "/api/state/historical" then getParamsStateHistorical
  else if path = "/api/audit/timeline" then getParamsAuditTimeline
  else if path = "/api/audit/event" then getParamsAuditEvent
  else if path = "/api/bootstrap/status" then mpure []
  else if path = "/api/bootstrap/bid-years/active" then mpure []
  else if path = "/api/bootstrap/completeness" then mpure []
  else if path = "/api/auth/bootstrap/status" then mpure []
  else if path = "/api/auth/me" then mpure []
  else mpure []

def BASE_URL : String := "http://127.0.0.1:8080"

/-- The HTTP request value `http_post` constructs before calling `urlopen`. -/
structure PostRequest where
  method : String
  url : String
  contentType : String
  body : String
deriving DecidableEq, Repr

/-- `http_post(url, body)`: POST with `Content-Type: application/json` and
the `json.dumps` serialization of the body. -/
def http_post (url : String) (body : List (String × JVal)) : PostRequest :=
  { method := "POST", url := url, contentType := "application/json",
    body := jsonDumps body }

/-- The full URL `http_get(url, params)` requests: the
`__event_id_path__` marker appends its quoted value as a trailing path
segment; otherwise a non-empty urlencoded query string is appended after
`?`, and an empty one leaves the bare URL. -/
def http_get_url (url : String) (params : List (String × String)) : String :=
  match params.lookup "__event_id_path__" with
  | some v => url ++ "/" ++ pyQuote v
  | none =>
    let q := urlencode params
    if q ≠ "" then url ++ "?" ++ q else url

/-- The endpoint catalog records. -/
structure Endpoint where
  key : String
  name : String
  method : String
  path : String
deriving DecidableEq, Repr

/-- The `ENDPOINTS` catalog from the source. -/
def ENDPOINTS : List Endpoint :=
  [⟨"1", "Create Bid Year", "POST", "/api/bid_years"⟩,
   ⟨"2", "List Bid Years", "GET", "/api/bid_years"⟩,
   ⟨"3", "Create Area", "POST", "/api/areas"⟩,
   ⟨"4", "List Areas", "GET", "/api/areas"⟩,
   ⟨"5", "Register User", "POST", "/api/users"⟩,
   ⟨"6", "List Users", "GET", "/api/users"⟩,
   ⟨"7", "Leave Availability", "GET", "/api/leave/availability"⟩,
   ⟨"8", "Bootstrap Status", "GET", "/api/bootstrap/status"⟩,
   ⟨"9", "Checkpoint", "POST", "/api/checkpoint"⟩,
   ⟨"10", "Finalize", "POST", "/api/finalize"⟩,
   ⟨"11", "Rollback", "POST", "/api/rollback"⟩,
   ⟨"12", "Current State", "GET", "/api/state/current"⟩,
   ⟨"13", "Historical State", "GET", "/api/state/historical"⟩,
   ⟨"14", "Audit Timeline", "GET", "/api/audit/timeline"⟩,
   ⟨"15", "Audit Event by ID", "GET", "/api/audit/event"⟩,
   ⟨"16", "Bootstrap Status", "GET", "/api/auth/bootstrap/status"⟩,
   ⟨"17", "Bootstrap Login", "POST", "/api/auth/bootstrap/login"⟩,
   ⟨"18", "Create First Admin", "POST", "/api/auth/bootstrap/create-first-admin"⟩,
   ⟨"19", "Login", "POST", "/api/auth/login"⟩,
   ⟨"20", "Logout", "POST", "/api/auth/logout"⟩,
   ⟨"21", "Who Am I", "GET", "/api/auth/me"⟩,
   ⟨"22", "Set Active Bid Year", "POST", "/api/bootstrap/bid-years/active"⟩,
   ⟨"23", "Get Active Bid Year", "GET", "/api/bootstrap/bid-years/active"⟩,
   ⟨"24", "Set Expected Area Count", "POST", "/api/bootstrap/bid-years/expected-areas"⟩,
   ⟨"25", "Set Expected User Count", "POST", "/api/bootstrap/areas/expected-users"⟩,
   ⟨"26", "Update User", "POST", "/api/users/update"⟩,
   ⟨"27", "Bootstrap Completeness", "GET", "/api/bootstrap/completeness"⟩]

/-- The POST paths `build_post_payload` has a builder branch for. -/
def handledPostPaths : List String :=
  ["/api/bid_years", "/api/areas", "/api/users", "/api/checkpoint",
   "/api/finalize", "/api/auth/bootstrap/login",
   "/api/auth/bootstrap/create-first-admin", "/api/auth/login",
   "/api/auth/logout", "/api/rollback", "/api/bootstrap/bid-years/active",
   "/api/bootstrap/bid-years/expected-areas",
   "/api/bootstrap/areas/expected-users", "/api/users/update"]

/-- Exceptions observable in one iteration of `main`'s `try` block, in the
order of its `except` clauses. -/
inductive IterException where
  | keyboardInterrupt : IterException
  | httpError : Int → String → IterException
  | notImplemented : String → IterException
deriving DecidableEq, Repr

/-- What the loop does after the `try` block: continue to the next menu
iteration, or (on `KeyboardInterrupt` only) print "Exiting." and `return`. -/
inductive LoopAction where
  | continueLoop : LoopAction
  | exitClean : LoopAction
deriving DecidableEq, Repr

/-- `main`'s `except` dispatch: `KeyboardInterrupt` returns cleanly,
`urllib.error.HTTPError` and `NotImplementedError` are printed and the
loop continues. -/
def handleException : IterException → LoopAction
  | .keyboardInterrupt => .exitClean
  | .httpError _ _ => .continueLoop
  | .notImplemented _ => .continueLoop

/-- Outcome of the POST branch of one loop iteration. -/
inductive PostIterResult where
  | responded : PostRequest → Int → String → PostIterResult
  | failedHttp : PostRequest → Int → String → PostIterResult
  | notImpl : String → PostIterResult
  | awaitingInput : PostIterResult
deriving Repr

/-- The POST branch of one `main` loop iteration: build the payload (a
`NotImplementedError` from the builder reaches the driver before any
transport call), otherwise send it through the network oracle `net`
(`.error` models the `HTTPError` that `urlopen` raises on non-2xx). -/
def postIteration (path : String) (s : Session) (inputs : List String)
    (net : PostRequest → Except (Int × String) (Int × String)) :
    PostIterResult × Session :=
  match build_post_payload path s inputs with
  | none => (.awaitingInput, s)
  | some (.notImplemented msg, s', _, _) => (.notImpl msg, s')
  | some (.ok p, s', _, _) =>
    let req := http_post (BASE_URL ++ path) p
    match net req with
    | .ok (st, tx) => (.responded req st tx, s')
    | .error (c, b) => (.failedHttp req c b, s')

/-- The HTTP requests actually issued during a POST iteration outcome. -/
def httpCallsOf : PostIterResult → List PostRequest
  | .responded req _ _ => [req]
  | .failedHttp req _ _ => [req]
  | .notImpl _ => []
  | .awaitingInput => []

/-- The exception (if any) the `try` block raises for a POST iteration
outcome. -/
def exceptionOf : PostIterResult → Option IterException
  | .responded _ _ _ => none
  | .failedHttp _ c b => some (.httpError c b)
  | .notImpl msg => some (.notImplemented msg)
  | .awaitingInput => none

/-- The loop action taken after a POST iteration: raised exceptions go
through `handleException`; a normal completion continues the loop. -/
def iterLoopAction (r : PostIterResult) : LoopAction :=
  match exceptionOf r with
  | some e => handleException e
  | none => .continueLoop

/-! ## Unfolding lemmas for the interaction monad -/

theorem mpure_eq {α : Type} (a : α) (s : Session) (i : List String) :
    mpure a s i = some (a, s, i, []) := rfl

theorem getSession_eq (s : Session) (i : List String) :
    getSession s i = some (s, s, i, []) := rfl

theorem setSession_eq (s' s : Session) (i : List String) :
    setSession s' s i = some ((), s', i, []) := rfl

theorem mbind_eq_some {α β : Type} {x : M α} {f : α → M β} {s : Session}
    {i : List String} {r : β × Session × List String × List String} :
    mbind x f s i = some r ↔
    ∃ a s₁ i₁ t₁ b s₂ i₂ t₂,
      x s i = some (a, s₁, i₁, t₁) ∧ f a s₁ i₁ = some (b, s₂, i₂, t₂) ∧
      r = (b, s₂, i₂, t₁ ++ t₂) := by
  constructor
  · intro h
    unfold mbind at h
    split at h
    · exact Option.noConfusion h
    next a s₁ i₁ t₁ hx =>
      split at h
      · exact Option.noConfusion h
      next b s₂ i₂ t₂ hf =>
        injection h with h
        exact ⟨a, s₁, i₁, t₁, b, s₂, i₂, t₂, hx, hf, h.symm⟩
  · rintro ⟨a, s₁, i₁, t₁, b, s₂, i₂, t₂, hx, hf, rfl⟩
    simp only [mbind, hx, hf]

theorem prompt_str_eq_some {label : String} {opt : Bool} {d : Option String}
    {s : Session} {i : List String} {r : String × Session × List String × List String} :
    prompt_str label opt d s i = some r ↔
    ∃ v rest, promptStrRun opt d i = some (v, rest) ∧ r = (v, s, rest, [label]) := by
  constructor
  · intro h
    unfold prompt_str at h
    split at h
    · exact Option.noConfusion h
    next v rest hrun =>
      injection h with h
      exact ⟨v, rest, hrun, h.symm⟩
  · rintro ⟨v, rest, hrun, rfl⟩
    unfold prompt_str
    rw [hrun]

theorem prompt_int_eq_some {label : String} {d : Option Int}
    {s : Session} {i : List String} {r : Int × Session × List String × List String} :
    prompt_int label d s i = some r ↔
    ∃ v rest, promptIntRun d i = some (v, rest) ∧ r = (v, s, rest, [label]) := by
  constructor
  · intro h
    unfold prompt_int at h
    split at h
    · exact Option.noConfusion h
    next v rest hrun =>
      injection h with h
      exact ⟨v, rest, hrun, h.symm⟩
  · rintro ⟨v, rest, hrun, rfl⟩
    unfold prompt_int
    rw [hrun]

theorem prompt_yes_no_eq_some {label : String} {d : Bool}
    {s : Session} {i : List String} {r : Bool × Session × List String × List String} :
    prompt_yes_no label d s i = some r ↔
    ∃ v rest, promptYesNoRun d i = some (v, rest) ∧ r = (v, s, rest, [label]) := by
  constructor
  · intro h
    unfold prompt_yes_no at h
    split at h
    · exact Option.noConfusion h
    next v rest hrun =>
      injection h with h
      exact ⟨v, rest, hrun, h.symm⟩
  · rintro ⟨v, rest, hrun, rfl⟩
    unfold prompt_yes_no
    rw [hrun]

theorem promptUserType_eq_some {s : Session} {i : List String}
    {r : String × Session × List String × List String} :
    promptUserType s i = some r ↔
    ∃ v rest, promptUserTypeAux i.length i = some (v, rest) ∧
      r = (v, s, rest, ["User type (CPC, CPC-IT, Dev-D, Dev-R)"]) := by
  constructor
  · intro h
    unfold promptUserType at h
    split at h
    · exact Option.noConfusion h
    next v rest hrun =>
      injection h with h
      exact ⟨v, rest, hrun, h.symm⟩
  · rintro ⟨v, rest, hrun, rfl⟩
    unfold promptUserType
    rw [hrun]


/-! ## Forward destructuring of monadic chains -/

/-- Session update performed by `prompt_actor_envelope`'s `SESSION.update`. -/
def updEnv (s : Session) (e : ActorEnvelope) : Session :=
  { s with
    actor_id := some e.actor_id, actor_role := some e.actor_role,
    cause_id := some e.cause_id, cause_description := some e.cause_description }

/-- Prompt labels issued by `prompt_actor_envelope`, in order. -/
def envLabels : List String :=
  ["Actor ID", "Actor Role (Admin/Bidder)", "Cause ID", "Cause description"]

theorem dest_mpure {α : Type} {a : α} {s : Session} {i : List String}
    {r : α × Session × List String × List String} (h : mpure a s i = some r) :
    r = (a, s, i, []) := by
  injection h with h
  exact h.symm

theorem dest_getSession {α : Type} {f : Session → M α} {s : Session} {i : List String}
    {r : α × Session × List String × List String}
    (h : mbind getSession f s i = some r) : f s s i = some r := by
  obtain ⟨a, s₁, i₁, t₁, b, s₂, i₂, t₂, hx, hf, hr⟩ := mbind_eq_some.mp h
  rw [getSession_eq] at hx
  injection hx with hx
  simp only [Prod.mk.injEq] at hx
  obtain ⟨rfl, rfl, rfl, rfl⟩ := hx
  rw [hf, hr]
  rfl

theorem dest_setSession {α : Type} {s' : Session} {f : Unit → M α} {s : Session}
    {i : List String} {r : α × Session × List String × List String}
    (h : mbind (setSession s') f s i = some r) : f () s' i = some r := by
  obtain ⟨a, s₁, i₁, t₁, b, s₂, i₂, t₂, hx, hf, hr⟩ := mbind_eq_some.mp h
  rw [setSession_eq] at hx
  injection hx with hx
  simp only [Prod.mk.injEq] at hx
  obtain ⟨_, rfl, rfl, rfl⟩ := hx
  rw [hf, hr]
  rfl

theorem dest_prompt_str {α : Type} {label : String} {opt : Bool} {d : Option String}
    {f : String → M α} {s : Session} {i : List String}
    {r : α × Session × List String × List String}
    (h : mbind (prompt_str label opt d) f s i = some r) :
    ∃ v rest r', promptStrRun opt d i = some (v, rest) ∧ f v s rest = some r' ∧
      r = (r'.1, r'.2.1, r'.2.2.1, label :: r'.2.2.2) := by
  obtain ⟨a, s₁, i₁, t₁, b, s₂, i₂, t₂, hx, hf, hr⟩ := mbind_eq_some.mp h
  obtain ⟨v, rest, hrun, heq⟩ := prompt_str_eq_some.mp hx
  simp only [Prod.mk.injEq] at heq
  obtain ⟨rfl, rfl, rfl, rfl⟩ := heq
  exact ⟨a, i₁, (b, s₂, i₂, t₂), hrun, hf, hr⟩

theorem dest_prompt_int {α : Type} {label : String} {d : Option Int}
    {f : Int → M α} {s : Session} {i : List String}
    {r : α × Session × List String × List String}
    (h : mbind (prompt_int label d) f s i = some r) :
    ∃ v rest r', promptIntRun d i = some (v, rest) ∧ f v s rest = some r' ∧
      r = (r'.1, r'.2.1, r'.2.2.1, label :: r'.2.2.2) := by
  obtain ⟨a, s₁, i₁, t₁, b, s₂, i₂, t₂, hx, hf, hr⟩ := mbind_eq_some.mp h
  obtain ⟨v, rest, hrun, heq⟩ := prompt_int_eq_some.mp hx
  simp only [Prod.mk.injEq] at heq
  obtain ⟨rfl, rfl, rfl, rfl⟩ := heq
  exact ⟨a, i₁, (b, s₂, i₂, t₂), hrun, hf, hr⟩

theorem dest_prompt_yes_no {α : Type} {label : String} {d : Bool}
    {f : Bool → M α} {s : Session} {i : List String}
    {r : α × Session × List String × List String}
    (h : mbind (prompt_yes_no label d) f s i = some r) :
    ∃ v rest r', promptYesNoRun d i = some (v, rest) ∧ f v s rest = some r' ∧
      r = (r'.1, r'.2.1, r'.2.2.1, label :: r'.2.2.2) := by
  obtain ⟨a, s₁, i₁, t₁, b, s₂, i₂, t₂, hx, hf, hr⟩ := mbind_eq_some.mp h
  obtain ⟨v, rest, hrun, heq⟩ := prompt_yes_no_eq_some.mp hx
  simp only [Prod.mk.injEq] at heq
  obtain ⟨rfl, rfl, rfl, rfl⟩ := heq
  exact ⟨a, i₁, (b, s₂, i₂, t₂), hrun, hf, hr⟩

theorem dest_promptUserType {α : Type} {f : String → M α} {s : Session} {i : List String}
    {r : α × Session × List String × List String}
    (h : mbind promptUserType f s i = some r) :
    ∃ v rest r', promptUserTypeAux i.length i = some (v, rest) ∧ f v s rest = some r' ∧
      r = (r'.1, r'.2.1, r'.2.2.1, "User type (CPC, CPC-IT, Dev-D, Dev-R)" :: r'.2.2.2) := by
  obtain ⟨a, s₁, i₁, t₁, b, s₂, i₂, t₂, hx, hf, hr⟩ := mbind_eq_some.mp h
  obtain ⟨v, rest, hrun, heq⟩ := promptUserType_eq_some.mp hx
  simp only [Prod.mk.injEq] at heq
  obtain ⟨rfl, rfl, rfl, rfl⟩ := heq
  exact ⟨a, i₁, (b, s₂, i₂, t₂), hrun, hf, hr⟩

/-- Forward characterization of a successful `prompt_actor_envelope` run:
the four fields are read by `prompt_str` with the current session values as
defaults, the session is updated with exactly the accepted values, and the
trace is the four labels. -/
theorem prompt_actor_envelope_dest {s : Session} {i : List String}
    {r : ActorEnvelope × Session × List String × List String}
    (h : prompt_actor_envelope s i = some r) :
    ∃ a i₁ ro i₂ ci i₃ cd i₄,
      promptStrRun false s.actor_id i = some (a, i₁) ∧
      promptStrRun false s.actor_role i₁ = some (ro, i₂) ∧
      promptStrRun false s.cause_id i₂ = some (ci, i₃) ∧
      promptStrRun false s.cause_description i₃ = some (cd, i₄) ∧
      r = (⟨a, ro, ci, cd⟩, updEnv s ⟨a, ro, ci, cd⟩, i₄, envLabels) := by
  unfold prompt_actor_envelope at h
  replace h := dest_getSession h
  obtain ⟨a, i₁, r₁, ha, h, hr₁⟩ := dest_prompt_str h
  replace h := dest_getSession h
  obtain ⟨ro, i₂, r₂, hro, h, hr₂⟩ := dest_prompt_str h
  replace h := dest_getSession h
  obtain ⟨ci, i₃, r₃, hci, h, hr₃⟩ := dest_prompt_str h
  replace h := dest_getSession h
  obtain ⟨cd, i₄, r₄, hcd, h, hr₄⟩ := dest_prompt_str h
  replace h := dest_getSession h
  replace h := dest_setSession h
  replace h := dest_mpure h
  subst h hr₄ hr₃ hr₂ hr₁
  exact ⟨a, i₁, ro, i₂, ci, i₃, cd, i₄, ha, hro, hci, hcd, rfl⟩

/-- Destructuring of `mbind prompt_actor_envelope f`. -/
theorem dest_envelope {α : Type} {f : ActorEnvelope → M α} {s : Session} {i : List String}
    {r : α × Session × List String × List String}
    (h : mbind prompt_actor_envelope f s i = some r) :
    ∃ env i₄ r', prompt_actor_envelope s i = some (env, updEnv s env, i₄, envLabels) ∧
      f env (updEnv s env) i₄ = some r' ∧
      r = (r'.1, r'.2.1, r'.2.2.1, envLabels ++ r'.2.2.2) := by
  obtain ⟨a, s₁, i₁, t₁, b, s₂, i₂, t₂, hx, hf, hr⟩ := mbind_eq_some.mp h
  obtain ⟨aid, j₁, ro, j₂, ci, j₃, cd, j₄, _, _, _, _, heq⟩ := prompt_actor_envelope_dest hx
  rw [heq] at hx
  simp only [Prod.mk.injEq] at heq
  obtain ⟨rfl, rfl, rfl, rfl⟩ := heq
  exact ⟨⟨aid, ro, ci, cd⟩, i₁, (b, s₂, i₂, t₂), hx, hf, hr⟩


/-! ## Claims -/

/-- Effective candidate value of one scripted input under `prompt_str`
semantics (required, non-optional): the stripped input if non-empty,
otherwise the default if present. -/
def effStr (default : Option String) (raw : String) : Option String :=
  if pyStrip raw ≠ "" then some (pyStrip raw) else default

/-- Effective integer of one scripted input under `prompt_int` semantics:
Python `int()` of the effective candidate (the default renders via `str`). -/
def effInt (d : Option Int) (raw : String) : Option Int :=
  (effStr (d.map toString) raw).bind pyInt

/-- If every scripted input fails to yield an integer, the `prompt_int` loop
consumes them all, re-prompting each time, and is still awaiting input. -/
theorem promptIntAux_all_fail {d : Option Int} :
    ∀ (inputs : List String) (fuel : Nat), (∀ x ∈ inputs, effInt d x = none) →
    promptIntAux d fuel inputs = none := by
  intro inputs
  induction inputs with
  | nil => intro fuel _; cases fuel <;> rfl
  | cons x xs ih =>
    intro fuel h
    have hx := h x (List.mem_cons_self x xs)
    have hxs : ∀ y ∈ xs, effInt d y = none := fun y hy => h y (List.mem_cons_of_mem _ hy)
    cases fuel with
    | zero => rfl
    | succ g =>
      by_cases hxe : pyStrip x = ""
      · cases hd : d with
        | none =>
          subst hd
          have hstep : promptStrRun false (Option.map toString (none : Option Int)) (x :: xs) =
              promptStrRun false (Option.map toString (none : Option Int)) xs := by
            simp [promptStrRun, hxe]
          calc promptIntAux none (g + 1) (x :: xs)
              = promptIntAux none (g + 1) xs := by
                simp only [promptIntAux, hstep]
            _ = none := ih (g + 1) hxs
        | some n =>
          subst hd
          have hpi : pyInt (toString n) = none := by
            have hq := hx
            simp [effInt, effStr, hxe] at hq
            exact hq
          have hstep : promptIntAux (some n) (g + 1) (x :: xs) = promptIntAux (some n) g xs := by
            simp only [promptIntAux]
            simp [promptStrRun, hxe, hpi]
          rw [hstep]
          exact ih g hxs
      · have hpi : pyInt (pyStrip x) = none := by
          have hq := hx
          simp [effInt, effStr, hxe] at hq
          exact hq
        have hstep : promptIntAux d (g + 1) (x :: xs) = promptIntAux d g xs := by
          simp only [promptIntAux]
          simp [promptStrRun, hxe, hpi]
        rw [hstep]
        exact ih g hxs

/-- The `prompt_int` loop returns the integer of the first scripted input
whose effective candidate parses, consuming exactly the inputs before it. -/
theorem promptIntAux_first {d : Option Int} :
    ∀ (bad : List String) (raw : String) (rest : List String) (fuel : Nat) (v : Int),
      (∀ x ∈ bad, effInt d x = none) → effInt d raw = some v →
      (bad ++ raw :: rest).length ≤ fuel →
      promptIntAux d fuel (bad ++ raw :: rest) = some (v, rest) := by
  intro bad
  induction bad with
  | nil =>
    intro raw rest fuel v _ hraw hlen
    cases fuel with
    | zero => simp at hlen
    | succ g =>
      by_cases hxe : pyStrip raw = ""
      · cases hd : d with
        | none =>
          subst hd
          simp [effInt, effStr, hxe] at hraw
        | some n =>
          subst hd
          have hpi : pyInt (toString n) = some v := by
            have hq := hraw
            simp [effInt, effStr, hxe] at hq
            exact hq
          simp only [List.nil_append, promptIntAux]
          simp [promptStrRun, hxe, hpi]
      · have hpi : pyInt (pyStrip raw) = some v := by
          have hq := hraw
          simp [effInt, effStr, hxe] at hq
          exact hq
        simp only [List.nil_append, promptIntAux]
        simp [promptStrRun, hxe, hpi]
  | cons x bad ih =>
    intro raw rest fuel v hbad hraw hlen
    have hx := hbad x (List.mem_cons_self x bad)
    have hbad' : ∀ y ∈ bad, effInt d y = none := fun y hy => hbad y (List.mem_cons_of_mem _ hy)
    cases fuel with
    | zero => simp at hlen
    | succ g =>
      by_cases hxe : pyStrip x = ""
      · cases hd : d with
        | none =>
          subst hd
          have hstep : promptStrRun false (Option.map toString (none : Option Int))
                (x :: (bad ++ raw :: rest)) =
              promptStrRun false (Option.map toString (none : Option Int))
                (bad ++ raw :: rest) := by
            simp [promptStrRun, hxe]
          have hlen' : (bad ++ raw :: rest).length ≤ g + 1 := by
            simp only [List.cons_append, List.length_cons] at hlen
            omega
          calc promptIntAux none (g + 1) ((x :: bad) ++ raw :: rest)
              = promptIntAux none (g + 1) (bad ++ raw :: rest) := by
                simp only [List.cons_append, promptIntAux, hstep]
            _ = some (v, rest) := ih raw rest (g + 1) v hbad' hraw hlen'
        | some n =>
          subst hd
          have hpi : pyInt (toString n) = none := by
            have hq := hx
            simp [effInt, effStr, hxe] at hq
            exact hq
          have hlen' : (bad ++ raw :: rest).length ≤ g := by
            simp only [List.cons_append, List.length_cons] at hlen
            simp only [List.length_append, List.length_cons] at hlen ⊢
            omega
          have hstep : promptIntAux (some n) (g + 1) ((x :: bad) ++ raw :: rest) =
              promptIntAux (some n) g (bad ++ raw :: rest) := by
            simp only [List.cons_append, promptIntAux]
            simp [promptStrRun, hxe, hpi]
          rw [hstep]
          exact ih raw rest g v hbad' hraw hlen'
      · have hpi : pyInt (pyStrip x) = none := by
          have hq := hx
          simp [effInt, effStr, hxe] at hq
          exact hq
        have hlen' : (bad ++ raw :: rest).length ≤ g := by
          simp only [List.cons_append, List.length_cons] at hlen
          simp only [List.length_append, List.length_cons] at hlen ⊢
          omega
        have hstep : promptIntAux d (g + 1) ((x :: bad) ++ raw :: rest) =
            promptIntAux d g (bad ++ raw :: rest) := by
          simp only [List.cons_append, promptIntAux]
          simp [promptStrRun, hxe, hpi]
        rw [hstep]
        exact ih raw rest g v hbad' hraw hlen'

/-- C8: for every integer prompt and any input sequence, each input that
does not parse as an integer is re-prompted (and, modelled as `none`, the
prompt only ever waits for more input — it never raises); the first input
whose effective value parses (the default string when the operator enters
nothing and a default exists) is returned, with the session untouched. -/
theorem C8_prompt_int_retry :
    (∀ (label : String) (d : Option Int) (s : Session) (bad : List String) (raw : String)
        (rest : List String) (v : Int),
      (∀ x ∈ bad, effInt d x = none) → effInt d raw = some v →
      prompt_int label d s (bad ++ raw :: rest) = some (v, s, rest, [label])) ∧
    (∀ (label : String) (d : Option Int) (s : Session) (inputs : List String),
      (∀ x ∈ inputs, effInt d x = none) → prompt_int label d s inputs = none) := by
  constructor
  · intro label d s bad raw rest v hbad hraw
    have h := promptIntAux_first bad raw rest (bad ++ raw :: rest).length v hbad hraw le_rfl
    unfold prompt_int promptIntRun
    rw [h]
  · intro label d s inputs h
    have h2 := promptIntAux_all_fail inputs inputs.length h
    unfold prompt_int promptIntRun
    rw [h2]

/-- Witness for C8: "abc" is re-prompted, then "42" is accepted. -/
theorem C8_witness :
    prompt_int "Bid year" none emptySession (["abc"] ++ "42" :: []) =
      some (42, emptySession, [], ["Bid year"]) :=
  C8_prompt_int_retry.1 "Bid year" none emptySession ["abc"] "42" [] 42
    (by decide) (by decide)



/-- C1 (code evidence): the Update User builder (`/api/users/update`) does
not validate `user_type`: an entered value "XYZ" outside the closed set
{CPC, CPC-IT, Dev-D, Dev-R} is placed verbatim in the request payload (no
re-prompt, no rejection), contradicting the claim that every builder
collecting `user_type` constrains it to that set.  (The Register User
builder does validate; the update builder's `prompt_str`+`cast` does not.) -/
theorem C1_update_user_type_unvalidated :
    build_post_payload "/api/users/update" emptySession
        ["a1", "Admin", "c1", "setup", "2025", "AB", "Bob", "Z1", "XYZ", "n",
         "2025-01-01", "2025-01-02", "2025-01-03", "2025-01-04", "n"] =
      some (.ok
        [("actor_id", .jstr "a1"), ("actor_role", .jstr "Admin"),
         ("cause_id", .jstr "c1"), ("cause_description", .jstr "setup"),
         ("bid_year", .jint 2025), ("initials", .jstr "AB"),
         ("name", .jstr "Bob"), ("area", .jstr "Z1"), ("crew", .jnull),
         ("user_type", .jstr "XYZ"),
         ("cumulative_natca_bu_date", .jstr "2025-01-01"),
         ("natca_bu_date", .jstr "2025-01-02"),
         ("eod_faa_date", .jstr "2025-01-03"),
         ("service_computation_date", .jstr "2025-01-04"),
         ("lottery_value", .jnull)],
        { actor_id := some "a1", actor_role := some "Admin", cause_id := some "c1",
          cause_description := some "setup", bid_year := some 2025, area := some "Z1" },
        [],
        ["Actor ID", "Actor Role (Admin/Bidder)", "Cause ID", "Cause description",
         "Bid year", "User initials", "User name", "Area",
         "User type (CPC, CPC-IT, Dev-D, Dev-R)", "Has crew assignment?",
         "Cumulative NATCA BU date", "NATCA BU date", "EOD/FAA date",
         "Service Computation Date", "Has lottery value?"]) ∧
    "XYZ" ∉ userTypes :=
  ⟨rfl, by decide⟩

/-- C3: the Create Bid Year builder, given the scenario's envelope and field
values, produces exactly the expected JSON object (insertion order and
integer typing included), and `http_post` sends it as a POST with
`Content-Type: application/json` to the bid-years path. -/
theorem C3_create_bid_year_request :
    build_post_payload "/api/bid_years" emptySession
        ["a1", "Admin", "c1", "setup", "2025", "2025-01-05", "26"] =
      some (.ok
        [("actor_id", .jstr "a1"), ("actor_role", .jstr "Admin"),
         ("cause_id", .jstr "c1"), ("cause_description", .jstr "setup"),
         ("year", .jint 2025), ("start_date", .jstr "2025-01-05"),
         ("num_pay_periods", .jint 26)],
        { actor_id := some "a1", actor_role := some "Admin", cause_id := some "c1",
          cause_description := some "setup" },
        [],
        ["Actor ID", "Actor Role (Admin/Bidder)", "Cause ID", "Cause description",
         "Bid year", "Start date (YYYY-MM-DD)", "Number of pay periods (26 or 27)"]) ∧
    http_post (BASE_URL ++ "/api/bid_years")
        [("actor_id", .jstr "a1"), ("actor_role", .jstr "Admin"),
         ("cause_id", .jstr "c1"), ("cause_description", .jstr "setup"),
         ("year", .jint 2025), ("start_date", .jstr "2025-01-05"),
         ("num_pay_periods", .jint 26)] =
      { method := "POST", url := "http://127.0.0.1:8080/api/bid_years",
        contentType := "application/json",
        body := "\x7b\"actor_id\": \"a1\", \"actor_role\": \"Admin\", \"cause_id\": \"c1\", \"cause_description\": \"setup\", \"year\": 2025, \"start_date\": \"2025-01-05\", \"num_pay_periods\": 26\x7d" } :=
  ⟨rfl, rfl⟩

/-- C5: every parameterless GET builder (list bid years, bootstrap status,
get active bid year, bootstrap completeness, auth bootstrap status,
who-am-i) returns the empty mapping without prompting or touching the
session, and `http_get` then requests the bare URL with no query string. -/
theorem C5_no_param_gets :
    ∀ (u : String) (s : Session) (i : List String),
    build_get_params "/api/bid_years" s i = some ([], s, i, []) ∧
    build_get_params "/api/bootstrap/status" s i = some ([], s, i, []) ∧
    build_get_params "/api/bootstrap/bid-years/active" s i = some ([], s, i, []) ∧
    build_get_params "/api/bootstrap/completeness" s i = some ([], s, i, []) ∧
    build_get_params "/api/auth/bootstrap/status" s i = some ([], s, i, []) ∧
    build_get_params "/api/auth/me" s i = some ([], s, i, []) ∧
    http_get_url u [] = u :=
  fun _ _ _ => ⟨rfl, rfl, rfl, rfl, rfl, rfl, rfl⟩

/-- C9: the Bootstrap Login builder carries built-in defaults
"admin"/"admin"; with two empty operator inputs the body is exactly the
credential pair, with no actor envelope fields and no session change. -/
theorem C9_bootstrap_login_defaults :
    ∀ s : Session,
    build_post_payload "/api/auth/bootstrap/login" s ["", ""] =
      some (.ok [("username", .jstr "admin"), ("password", .jstr "admin")], s, [],
        ["Username", "Password"]) :=
  fun _ => rfl

/-- C7: in the interactive loop, an HTTP failure or a "not implemented"
condition is caught and the loop continues; every POST-iteration outcome
continues the loop; the only exception that terminates is the process
interrupt, which exits cleanly. -/
theorem C7_loop_exception_handling :
    (∀ (c : Int) (b : String), handleException (.httpError c b) = .continueLoop) ∧
    (∀ m : String, handleException (.notImplemented m) = .continueLoop) ∧
    handleException .keyboardInterrupt = .exitClean ∧
    (∀ e : IterException, handleException e = .exitClean → e = .keyboardInterrupt) ∧
    (∀ r : PostIterResult, iterLoopAction r = .continueLoop) := by
  refine ⟨fun _ _ => rfl, fun _ => rfl, rfl, ?_, ?_⟩
  · intro e he
    cases e with
    | keyboardInterrupt => rfl
    | httpError c b => exact LoopAction.noConfusion he
    | notImplemented m => exact LoopAction.noConfusion he
  · intro r
    cases r <;> rfl

/-- Witness for C7: the interrupt case of the converse implication at a
concrete exception. -/
theorem C7_loop_exception_handling_witness :
    IterException.keyboardInterrupt = IterException.keyboardInterrupt ∧
    iterLoopAction (.notImpl "x") = .continueLoop :=
  ⟨C7_loop_exception_handling.2.2.2.1 .keyboardInterrupt rfl,
   C7_loop_exception_handling.2.2.2.2 (.notImpl "x")⟩


/-- C6: selecting any POST path outside the builder dispatch performs no
HTTP call: `build_post_payload` returns the `NotImplementedError` message
without consuming input or touching the session, the iteration outcome is
the caught "not implemented" result with zero transport calls, and the loop
continues to the next menu round. -/
theorem C6_unimplemented_post :
    ∀ (path : String) (s : Session) (i : List String)
      (net : PostRequest → Except (Int × String) (Int × String)),
    path ∉ handledPostPaths →
    build_post_payload path s i =
      some (.notImplemented ("POST body schema not implemented for " ++ path), s, i, []) ∧
    postIteration path s i net =
      (.notImpl ("POST body schema not implemented for " ++ path), s) ∧
    httpCallsOf (postIteration path s i net).1 = [] ∧
    iterLoopAction (postIteration path s i net).1 = .continueLoop := by
  intro path s i net h
  have h1 : path ≠ "/api/bid_years" := by rintro rfl; exact h (by decide)
  have h2 : path ≠ "/api/areas" := by rintro rfl; exact h (by decide)
  have h3 : path ≠ "/api/users" := by rintro rfl; exact h (by decide)
  have h4 : path ≠ "/api/checkpoint" := by rintro rfl; exact h (by decide)
  have h5 : path ≠ "/api/finalize" := by rintro rfl; exact h (by decide)
  have h6 : path ≠ "/api/auth/bootstrap/login" := by rintro rfl; exact h (by decide)
  have h7 : path ≠ "/api/auth/bootstrap/create-first-admin" := by rintro rfl; exact h (by decide)
  have h8 : path ≠ "/api/auth/login" := by rintro rfl; exact h (by decide)
  have h9 : path ≠ "/api/auth/logout" := by rintro rfl; exact h (by decide)
  have h10 : path ≠ "/api/rollback" := by rintro rfl; exact h (by decide)
  have h11 : path ≠ "/api/bootstrap/bid-years/active" := by rintro rfl; exact h (by decide)
  have h12 : path ≠ "/api/bootstrap/bid-years/expected-areas" := by rintro rfl; exact h (by decide)
  have h13 : path ≠ "/api/bootstrap/areas/expected-users" := by rintro rfl; exact h (by decide)
  have h14 : path ≠ "/api/users/update" := by rintro rfl; exact h (by decide)
  have hb : build_post_payload path s i =
      some (.notImplemented ("POST body schema not implemented for " ++ path), s, i, []) := by
    unfold build_post_payload
    rw [if_neg h1, if_neg h2, if_neg h3, if_neg h4, if_neg h5, if_neg h6, if_neg h7,
        if_neg h8, if_neg h9, if_neg h10, if_neg h11, if_neg h12, if_neg h13, if_neg h14]
    rfl
  have hp : postIteration path s i net =
      (.notImpl ("POST body schema not implemented for " ++ path), s) := by
    unfold postIteration
    rw [hb]
  refine ⟨hb, hp, ?_, ?_⟩
  · rw [hp]
    rfl
  · rw [hp]
    rfl

/-- Witness for C6: a POST path with no builder, e.g. "/api/quit". -/
theorem C6_unimplemented_post_witness :
    build_post_payload "/api/quit" emptySession [] =
      some (.notImplemented "POST body schema not implemented for /api/quit",
        emptySession, [], []) ∧
    postIteration "/api/quit" emptySession [] (fun _ => .ok (200, "")) =
      (.notImpl "POST body schema not implemented for /api/quit", emptySession) ∧
    httpCallsOf (postIteration "/api/quit" emptySession [] (fun _ => .ok (200, ""))).1 = [] ∧
    iterLoopAction (postIteration "/api/quit" emptySession [] (fun _ => .ok (200, ""))).1 =
      .continueLoop :=
  C6_unimplemented_post "/api/quit" emptySession [] (fun _ => .ok (200, "")) (by decide)

/-- C4: the audit-event-by-id GET builder returns only the trailing-path
marker carrying the entered id, and `http_get` resolves it by URL-escaping
the id and appending it as a path segment — never as a query string; with
id 42 and base path `/api/audit/event` the URL is `/api/audit/event/42`. -/
theorem C4_audit_event_path_segment :
    (∀ (u : String) (s : Session) (i : List String)
       (r : List (String × String) × Session × List String × List String),
      build_get_params "/api/audit/event" s i = some r →
      ∃ eid rest, promptIntRun none i = some (eid, rest) ∧
        r = ([("__event_id_path__", toString eid)], s, rest, ["Event ID"]) ∧
        http_get_url u [("__event_id_path__", toString eid)] =
          u ++ "/" ++ pyQuote (toString eid)) ∧
    http_get_url "/api/audit/event" [("__event_id_path__", toString (42 : Int))] =
      "/api/audit/event/42" ∧
    build_get_params "/api/audit/event" emptySession ["42"] =
      some ([("__event_id_path__", "42")], emptySession, [], ["Event ID"]) := by
  refine ⟨?_, rfl, rfl⟩
  intro u s i r h
  have hd : build_get_params "/api/audit/event" = getParamsAuditEvent := rfl
  rw [hd] at h
  unfold getParamsAuditEvent at h
  obtain ⟨eid, rest, r', hrun, h, hr⟩ := dest_prompt_int h
  replace h := dest_mpure h
  subst h
  subst hr
  exact ⟨eid, rest, hrun, rfl, rfl⟩

/-- Witness for C4: the general clause applied to the concrete run with
input "42". -/
theorem C4_audit_event_path_segment_witness :
    ∃ eid rest, promptIntRun none ["42"] = some (eid, rest) ∧
      (([("__event_id_path__", "42")], emptySession, [], ["Event ID"]) :
        List (String × String) × Session × List String × List String) =
        ([("__event_id_path__", toString eid)], emptySession, rest, ["Event ID"]) ∧
      http_get_url "/api/audit/event" [("__event_id_path__", toString eid)] =
        "/api/audit/event" ++ "/" ++ pyQuote (toString eid) :=
  C4_audit_event_path_segment.1 "/api/audit/event" emptySession ["42"]
    ([("__event_id_path__", "42")], emptySession, [], ["Event ID"]) rfl

/-- C2: the session-defaults store holds at most the last accepted value per
field.  Prompts themselves never write the store (parts 1-3), so rejected or
re-prompted input cannot change it; `prompt_actor_envelope` commits exactly
the accepted four actor fields after all are accepted, and re-running it
with empty inputs pre-fills each field with the stored value and leaves the
store unchanged (part 4); `build_post_payload` for `/api/areas` commits the
accepted `bid_year`/`area_id` to the store only after acceptance, matching
the payload (part 5). -/
theorem C2_session_defaults :
    (∀ (label : String) (opt : Bool) (d : Option String) (s : Session) (i : List String)
        (v : String) (s' : Session) (rest tr : List String),
      prompt_str label opt d s i = some (v, s', rest, tr) → s' = s) ∧
    (∀ (label : String) (d : Option Int) (s : Session) (i : List String)
        (v : Int) (s' : Session) (rest tr : List String),
      prompt_int label d s i = some (v, s', rest, tr) → s' = s) ∧
    (∀ (label : String) (d : Bool) (s : Session) (i : List String)
        (v : Bool) (s' : Session) (rest tr : List String),
      prompt_yes_no label d s i = some (v, s', rest, tr) → s' = s) ∧
    (∀ (s : Session) (i : List String) (env : ActorEnvelope) (s' : Session)
        (rest tr : List String),
      prompt_actor_envelope s i = some (env, s', rest, tr) →
      s' = updEnv s env ∧
      prompt_actor_envelope s' ("" :: "" :: "" :: "" :: rest) =
        some (env, s', rest, envLabels)) ∧
    (∀ (s : Session) (i : List String) (p : List (String × JVal)) (s' : Session)
        (rest tr : List String),
      build_post_payload "/api/areas" s i = some (.ok p, s', rest, tr) →
      ∃ env b a,
        p = envFields env ++ [("bid_year", .jint b), ("area_id", .jstr a)] ∧
        s'.bid_year = some b ∧ s'.area = some a ∧
        s' = { updEnv s env with bid_year := some b, area := some a }) := by
  refine ⟨?_, ?_, ?_, ?_, ?_⟩
  · intro label opt d s i v s' rest tr h
    obtain ⟨v', rest', _, heq⟩ := prompt_str_eq_some.mp h
    simp only [Prod.mk.injEq] at heq
    exact heq.2.1
  · intro label d s i v s' rest tr h
    obtain ⟨v', rest', _, heq⟩ := prompt_int_eq_some.mp h
    simp only [Prod.mk.injEq] at heq
    exact heq.2.1
  · intro label d s i v s' rest tr h
    obtain ⟨v', rest', _, heq⟩ := prompt_yes_no_eq_some.mp h
    simp only [Prod.mk.injEq] at heq
    exact heq.2.1
  · intro s i env s' rest tr h
    obtain ⟨a, i₁, ro, i₂, ci, i₃, cd, i₄, h1, h2, h3, h4, heq⟩ :=
      prompt_actor_envelope_dest h
    simp only [Prod.mk.injEq] at heq
    obtain ⟨he, hs, hrest, htr⟩ := heq
    subst he hs hrest
    exact ⟨rfl, rfl⟩
  · intro s i p s' rest tr h
    have hd : build_post_payload "/api/areas" = buildAreas := rfl
    rw [hd] at h
    unfold buildAreas at h
    obtain ⟨env, i₄, r', henv, h, hr⟩ := dest_envelope h
    replace h := dest_getSession h
    obtain ⟨b, rest₂, r₂, hb, h, hr₂⟩ := dest_prompt_int h
    obtain ⟨a, rest₃, r₃, ha, h, hr₃⟩ := dest_prompt_str h
    replace h := dest_getSession h
    replace h := dest_setSession h
    replace h := dest_mpure h
    subst h hr₃ hr₂
    simp only [Prod.mk.injEq] at hr
    obtain ⟨hp, hs, hrest, htr⟩ := hr
    injection hp with hp
    subst hp hs
    exact ⟨env, b, a, rfl, rfl, rfl, rfl⟩



/-- Witness for C2: a concrete envelope run from the empty session, then the
pre-fill re-run on four empty inputs. -/
theorem C2_session_defaults_witness :
    (updEnv emptySession ⟨"a1", "Admin", "c1", "setup"⟩ : Session) =
      updEnv emptySession ⟨"a1", "Admin", "c1", "setup"⟩ ∧
    prompt_actor_envelope (updEnv emptySession ⟨"a1", "Admin", "c1", "setup"⟩)
        ("" :: "" :: "" :: "" :: []) =
      some (⟨"a1", "Admin", "c1", "setup"⟩,
        updEnv emptySession ⟨"a1", "Admin", "c1", "setup"⟩, [], envLabels) :=
  C2_session_defaults.2.2.2.1 emptySession ["a1", "Admin", "c1", "setup"]
    ⟨"a1", "Admin", "c1", "setup"⟩ (updEnv emptySession ⟨"a1", "Admin", "c1", "setup"⟩)
    [] envLabels rfl

/-- Associativity of sequencing (traces concatenate associatively). -/
theorem mbind_assoc {α β γ : Type} (x : M α) (g : α → M β) (f : β → M γ) :
    mbind (mbind x g) f = mbind x (fun a => mbind (g a) f) := by
  funext s i
  unfold mbind
  cases hx : x s i with
  | none => rfl
  | some q =>
    obtain ⟨a, s₁, i₁, t₁⟩ := q
    cases hg : g a s₁ i₁ with
    | none => simp [hg]
    | some q₂ =>
      obtain ⟨b, s₂, i₂, t₂⟩ := q₂
      cases hf : f b s₂ i₂ with
      | none => simp [hg, hf]
      | some q₃ =>
        obtain ⟨c, s₃, i₃, t₃⟩ := q₃
        simp [hg, hf, List.append_assoc]

/-- Destructuring of `mbind (mpure a) f`. -/
theorem dest_mpure_bind {α β : Type} {a : α} {f : α → M β} {s : Session} {i : List String}
    {r : β × Session × List String × List String}
    (h : mbind (mpure a) f s i = some r) : f a s i = some r := by
  obtain ⟨a', s₁, i₁, t₁, b, s₂, i₂, t₂, hx, hf, hr⟩ := mbind_eq_some.mp h
  injection hx with hx
  simp only [Prod.mk.injEq] at hx
  obtain ⟨rfl, rfl, rfl, rfl⟩ := hx
  rw [hf, hr]
  rfl

/-- Destructuring of the conditional crew/lottery pattern
`prompt_int(...) if flag else None`: the continuation receives some value,
and the trace contribution is either nothing or exactly the one label. -/
theorem dest_crew {α : Type} {cond : Bool} {label : String} {f : Option Int → M α}
    {s : Session} {i : List String} {r : α × Session × List String × List String}
    (h : mbind (if cond
                then mbind (prompt_int label none) fun n => mpure (some n)
                else mpure none) f s i = some r) :
    ∃ (cv : Option Int) (i' : List String)
      (r' : α × Session × List String × List String) (t : List String),
      f cv s i' = some r' ∧ (t = [] ∨ t = [label]) ∧
      r = (r'.1, r'.2.1, r'.2.2.1, t ++ r'.2.2.2) := by
  cases cond with
  | false =>
    rw [if_neg (by decide : ¬ (false = true))] at h
    replace h := dest_mpure_bind h
    exact ⟨none, i, r, [], h, Or.inl rfl, rfl⟩
  | true =>
    rw [if_pos (by decide : (true = true))] at h
    rw [mbind_assoc] at h
    obtain ⟨v, rest, r', hrun, h, hr⟩ := dest_prompt_int h
    replace h := dest_mpure_bind h
    exact ⟨some v, rest, r', [label], h, Or.inr rfl, hr⟩

/-- C10: every successful Register User build sets `lottery_value` to JSON
`null` and never issues a lottery prompt ("Lottery value" or
"Has lottery value?" never appear in the prompt trace), for every operator
input sequence; the Update User builder, by contrast, prompts for and sends
a non-null `lottery_value` (concrete run with value 7). -/
theorem C10_register_lottery_null :
    (∀ (s : Session) (i : List String) (p : List (String × JVal)) (s' : Session)
        (rest tr : List String),
      build_post_payload "/api/users" s i = some (.ok p, s', rest, tr) →
      List.lookup "lottery_value" p = some .jnull ∧
      "Lottery value" ∉ tr ∧ "Has lottery value?" ∉ tr) ∧
    build_post_payload "/api/users/update" emptySession
        ["a1", "Admin", "c1", "setup", "2025", "AB", "Bob", "Z1", "CPC", "y", "3",
         "2025-01-01", "2025-01-02", "2025-01-03", "2025-01-04", "y", "7"] =
      some (.ok
        [("actor_id", .jstr "a1"), ("actor_role", .jstr "Admin"),
         ("cause_id", .jstr "c1"), ("cause_description", .jstr "setup"),
         ("bid_year", .jint 2025), ("initials", .jstr "AB"),
         ("name", .jstr "Bob"), ("area", .jstr "Z1"), ("crew", .jint 3),
         ("user_type", .jstr "CPC"),
         ("cumulative_natca_bu_date", .jstr "2025-01-01"),
         ("natca_bu_date", .jstr "2025-01-02"),
         ("eod_faa_date", .jstr "2025-01-03"),
         ("service_computation_date", .jstr "2025-01-04"),
         ("lottery_value", .jint 7)],
        { actor_id := some "a1", actor_role := some "Admin", cause_id := some "c1",
          cause_description := some "setup", bid_year := some 2025, area := some "Z1" },
        [],
        ["Actor ID", "Actor Role (Admin/Bidder)", "Cause ID", "Cause description",
         "Bid year", "User initials", "User name", "Area",
         "User type (CPC, CPC-IT, Dev-D, Dev-R)", "Has crew assignment?", "Crew (1-7)",
         "Cumulative NATCA BU date", "NATCA BU date", "EOD/FAA date",
         "Service Computation Date", "Has lottery value?", "Lottery value"]) := by
  constructor
  · intro s i p s' rest tr h
    have hdp : build_post_payload "/api/users" = buildUsers := rfl
    rw [hdp] at h
    unfold buildUsers at h
    obtain ⟨env, i₁, r₁, henv, h, hr⟩ := dest_envelope h
    obtain ⟨ac, i₂, r₂, hac, h, hr₂⟩ := dest_prompt_yes_no h
    obtain ⟨cv, i₃, r₃, tcrew, h, htcrew, hr₃⟩ := dest_crew h
    obtain ⟨ut, i₄, r₄, hut, h, hr₄⟩ := dest_promptUserType h
    replace h := dest_getSession h
    obtain ⟨by_, i₅, r₅, hby, h, hr₅⟩ := dest_prompt_int h
    obtain ⟨ini, i₆, r₆, hini, h, hr₆⟩ := dest_prompt_str h
    obtain ⟨nm, i₇, r₇, hnm, h, hr₇⟩ := dest_prompt_str h
    replace h := dest_getSession h
    obtain ⟨ar, i₈, r₈, har, h, hr₈⟩ := dest_prompt_str h
    obtain ⟨d1, i₉, r₉, hd1, h, hr₉⟩ := dest_prompt_str h
    obtain ⟨d2, i₁₀, r₁₀, hd2, h, hr₁₀⟩ := dest_prompt_str h
    obtain ⟨d3, i₁₁, r₁₁, hd3, h, hr₁₁⟩ := dest_prompt_str h
    obtain ⟨d4, i₁₂, r₁₂, hd4, h, hr₁₂⟩ := dest_prompt_str h
    replace h := dest_getSession h
    replace h := dest_setSession h
    replace h := dest_mpure h
    subst h hr₁₂ hr₁₁ hr₁₀ hr₉ hr₈ hr₇ hr₆ hr₅ hr₄ hr₃ hr₂
    simp only [Prod.mk.injEq] at hr
    obtain ⟨hp, hs, hrest, htr⟩ := hr
    injection hp with hp
    subst hp
    refine ⟨rfl, ?_, ?_⟩
    · subst htr
      rcases htcrew with rfl | rfl <;> decide
    · subst htr
      rcases htcrew with rfl | rfl <;> decide
  · rfl


/-- Witness for C10: the register clause applied to a concrete run. -/
theorem C10_register_lottery_null_witness :
    List.lookup "lottery_value"
        [("actor_id", JVal.jstr "a1"), ("actor_role", JVal.jstr "Admin"),
         ("cause_id", JVal.jstr "c1"), ("cause_description", JVal.jstr "setup"),
         ("bid_year", JVal.jint 2025), ("initials", JVal.jstr "AB"),
         ("name", JVal.jstr "Bob"), ("area", JVal.jstr "Z1"), ("crew", JVal.jnull),
         ("user_type", JVal.jstr "CPC"),
         ("cumulative_natca_bu_date", JVal.jstr "2024-01-01"),
         ("natca_bu_date", JVal.jstr "2024-01-02"),
         ("eod_faa_date", JVal.jstr "2024-01-03"),
         ("service_computation_date", JVal.jstr "2024-01-04"),
         ("lottery_value", JVal.jnull)] = some JVal.jnull ∧
    "Lottery value" ∉
      ["Actor ID", "Actor Role (Admin/Bidder)", "Cause ID", "Cause description",
       "Assign crew now?", "User type (CPC, CPC-IT, Dev-D, Dev-R)", "Bid year",
       "User initials", "User name", "Area", "Cumulative NATCA BU date (YYYY-MM-DD)",
       "NATCA BU date (YYYY-MM-DD)", "EOD/FAA date (YYYY-MM-DD)", "SCD (YYYY-MM-DD)"] ∧
    "Has lottery value?" ∉
      ["Actor ID", "Actor Role (Admin/Bidder)", "Cause ID", "Cause description",
       "Assign crew now?", "User type (CPC, CPC-IT, Dev-D, Dev-R)", "Bid year",
       "User initials", "User name", "Area", "Cumulative NATCA BU date (YYYY-MM-DD)",
       "NATCA BU date (YYYY-MM-DD)", "EOD/FAA date (YYYY-MM-DD)", "SCD (YYYY-MM-DD)"] :=
  C10_register_lottery_null.1 emptySession
    ["a1", "Admin", "c1", "setup", "n", "CPC", "2025", "AB", "Bob", "Z1",
     "2024-01-01", "2024-01-02", "2024-01-03", "2024-01-04"]
    [("actor_id", JVal.jstr "a1"), ("actor_role", JVal.jstr "Admin"),
     ("cause_id", JVal.jstr "c1"), ("cause_description", JVal.jstr "setup"),
     ("bid_year", JVal.jint 2025), ("initials", JVal.jstr "AB"),
     ("name", JVal.jstr "Bob"), ("area", JVal.jstr "Z1"), ("crew", JVal.jnull),
     ("user_type", JVal.jstr "CPC"),
     ("cumulative_natca_bu_date", JVal.jstr "2024-01-01"),
     ("natca_bu_date", JVal.jstr "2024-01-02"),
     ("eod_faa_date", JVal.jstr "2024-01-03"),
     ("service_computation_date", JVal.jstr "2024-01-04"),
     ("lottery_value", JVal.jnull)]
    { actor_id := some "a1", actor_role := some "Admin", cause_id := some "c1",
      cause_description := some "setup", bid_year := some 2025, area := some "Z1" }
    []
    ["Actor ID", "Actor Role (Admin/Bidder)", "Cause ID", "Cause description",
     "Assign crew now?", "User type (CPC, CPC-IT, Dev-D, Dev-R)", "Bid year",
     "User initials", "User name", "Area", "Cumulative NATCA BU date (YYYY-MM-DD)",
     "NATCA BU date (YYYY-MM-DD)", "EOD/FAA date (YYYY-MM-DD)", "SCD (YYYY-MM-DD)"]
    rfl

end Zabbid

